import Mathlib

/-!
Verification development for `omzmini.py`, a minimal oh-my-zsh bootstrapper.

The Python source is shallowly embedded:
* Python strings are modelled as `String` / `List Char` (a Python `str` is a
  sequence of code points); file contents are byte lists (`List Nat`).
* `hashlib.sha256` is modelled by a full SHA-256 implementation over `Nat`
  with explicit reduction mod 2^32; a hash object is its accumulated bytes.
* The filesystem is a map from paths to optional contents plus a set of
  existing directories; every externally visible action of the tool is
  recorded in an event trace.
* External inputs (path resolution, the remote repository, the wall clock)
  are parameters of an explicit context.
-/

/-! ### Python string primitives (on `List Char`) -/

/-- Python `str.strip()`: drop whitespace from both ends. -/
def pystrip (s : List Char) : List Char :=
  ((s.dropWhile Char.isWhitespace).reverse.dropWhile Char.isWhitespace).reverse

/-- Python `str.startswith(p)`. -/
def pystartswith (p s : List Char) : Bool :=
  p.isPrefixOf s

/-- Python `str.split(c)` for a one-character separator: split on every
occurrence, keeping empty segments. -/
def pysplitchar (c : Char) : List Char → List (List Char)
  | [] => [[]]
  | x :: xs =>
    if x = c then [] :: pysplitchar c xs
    else
      match pysplitchar c xs with
      | [] => [[x]]
      | seg :: rest => (x :: seg) :: rest

/-- Python `str.split(c, 1)[1]`: the remainder after the first occurrence of
`c`, or `none` when `c` does not occur (so that indexing `[1]` raises). -/
def pysplitOnceRest (c : Char) : List Char → Option (List Char)
  | [] => none
  | x :: xs => if x = c then some xs else pysplitOnceRest c xs

/-- Worker for `pysplitws`: `cur` is the current token, reversed. -/
def pysplitwsAux : List Char → List Char → List (List Char)
  | [], cur => if cur = [] then [] else [cur.reverse]
  | c :: cs, cur =>
    if c.isWhitespace then
      if cur = [] then pysplitwsAux cs []
      else cur.reverse :: pysplitwsAux cs []
    else pysplitwsAux cs (c :: cur)

/-- Python `str.split()` (no separator): split on whitespace runs, discarding
empty tokens. -/
def pysplitws (s : List Char) : List (List Char) :=
  pysplitwsAux s []

/-- Python `str.splitlines()` restricted to `'\n'` boundaries: a trailing
newline does not produce a final empty line, and the empty string has no
lines. -/
def pysplitlines (s : List Char) : List (List Char) :=
  if s = [] then []
  else
    let segs := pysplitchar '\n' s
    if s.getLast? = some '\n' then segs.dropLast else segs

/-- `os.path.dirname`: the part of the path before its last `/`, with
trailing slashes stripped unless the head is all slashes. -/
def upToLastSep : List Char → Option (List Char)
  | [] => none
  | c :: cs =>
    match upToLastSep cs with
    | some r => some (c :: r)
    | none => if c = '/' then some [c] else none

def dirname (p : String) : String :=
  match upToLastSep p.toList with
  | none => ""
  | some head =>
    if head.any (· ≠ '/') then
      String.mk ((head.reverse.dropWhile (· = '/')).reverse)
    else
      String.mk head

/-! ### SHA-256 over `Nat` (bytes are `Nat` values `< 256`) -/

abbrev Bytes := List Nat

def w32 (x : Nat) : Nat := x % 4294967296

def rotr32 (n x : Nat) : Nat := w32 ((x >>> n) ||| (x <<< (32 - n)))

def bsig0 (x : Nat) : Nat := (rotr32 2 x) ^^^ (rotr32 13 x) ^^^ (rotr32 22 x)
def bsig1 (x : Nat) : Nat := (rotr32 6 x) ^^^ (rotr32 11 x) ^^^ (rotr32 25 x)
def ssig0 (x : Nat) : Nat := (rotr32 7 x) ^^^ (rotr32 18 x) ^^^ (x >>> 3)
def ssig1 (x : Nat) : Nat := (rotr32 17 x) ^^^ (rotr32 19 x) ^^^ (x >>> 10)

def chFn (x y z : Nat) : Nat := (x &&& y) ^^^ ((x ^^^ 4294967295) &&& z)
def majFn (x y z : Nat) : Nat := (x &&& y) ^^^ (x &&& z) ^^^ (y &&& z)

def K256 : List Nat :=
  [1116352408, 1899447441, 3049323471, 3921009573,
   961987163, 1508970993, 2453635748, 2870763221,
   3624381080, 310598401, 607225278, 1426881987,
   1925078388, 2162078206, 2614888103, 3248222580,
   3835390401, 4022224774, 264347078, 604807628,
   770255983, 1249150122, 1555081692, 1996064986,
   2554220882, 2821834349, 2952996808, 3210313671,
   3336571891, 3584528711, 113926993, 338241895,
   666307205, 773529912, 1294757372, 1396182291,
   1695183700, 1986661051, 2177026350, 2456956037,
   2730485921, 2820302411, 3259730800, 3345764771,
   3516065817, 3600352804, 4094571909, 275423344,
   430227734, 506948616, 659060556, 883997877,
   958139571, 1322822218, 1537002063, 1747873779,
   1955562222, 2024104815, 2227730452, 2361852424,
   2428436474, 2756734187, 3204031479, 3329325298]

/-- Big-endian 8-byte encoding of a 64-bit length. -/
def lenBE8 (n : Nat) : Bytes :=
  [(n >>> 56) % 256, (n >>> 48) % 256, (n >>> 40) % 256, (n >>> 32) % 256,
   (n >>> 24) % 256, (n >>> 16) % 256, (n >>> 8) % 256, n % 256]

/-- SHA-256 message padding: append `0x80`, zeros to 56 mod 64, then the
bit length. -/
def msgPad (msg : Bytes) : Bytes :=
  let L := msg.length
  msg ++ 128 :: List.replicate ((119 - L % 64) % 64) 0 ++ lenBE8 (8 * L)

/-- Split a byte list into 64-byte blocks. The first argument is fuel (any
value at least `l.length` gives the same result); it only makes the
recursion structural so that the definition evaluates in the kernel. -/
def toBlocksF : Nat → Bytes → List Bytes
  | 0, _ => []
  | fuel + 1, l => if l = [] then [] else l.take 64 :: toBlocksF fuel (l.drop 64)

def toBlocks (l : Bytes) : List Bytes := toBlocksF l.length l

/-- 64 bytes → 16 big-endian 32-bit words. -/
def words16 : Bytes → List Nat
  | b0 :: b1 :: b2 :: b3 :: rest =>
      (((b0 * 256 + b1) * 256 + b2) * 256 + b3) :: words16 rest
  | _ => []

/-- One step of the message-schedule extension. -/
def schedStep (ws : List Nat) : Nat :=
  let t := ws.length
  w32 (ssig1 (ws.getD (t - 2) 0) + ws.getD (t - 7) 0 +
       ssig0 (ws.getD (t - 15) 0) + ws.getD (t - 16) 0)

def schedule : Nat → List Nat → List Nat
  | 0, ws => ws
  | n + 1, ws => schedule n (ws ++ [schedStep ws])

/-- The eight 32-bit working variables of SHA-256. -/
structure H8 where
  a : Nat
  b : Nat
  c : Nat
  d : Nat
  e : Nat
  f : Nat
  g : Nat
  h : Nat
deriving DecidableEq

def sha256H0 : H8 :=
  ⟨1779033703, 3144134277, 1013904242, 2773480762,
   1359893119, 2600822924, 528734635, 1541459225⟩

def round1 (st : H8) (kt wt : Nat) : H8 :=
  let t1 := w32 (st.h + bsig1 st.e + chFn st.e st.f st.g + kt + wt)
  let t2 := w32 (bsig0 st.a + majFn st.a st.b st.c)
  ⟨w32 (t1 + t2), st.a, st.b, st.c, w32 (st.d + t1), st.e, st.f, st.g⟩

def compress (st : H8) (block : Bytes) : H8 :=
  let ws := schedule 48 (words16 block)
  let r := (List.zip K256 ws).foldl (fun s kw => round1 s kw.1 kw.2) st
  ⟨w32 (st.a + r.a), w32 (st.b + r.b), w32 (st.c + r.c), w32 (st.d + r.d),
   w32 (st.e + r.e), w32 (st.f + r.f), w32 (st.g + r.g), w32 (st.h + r.h)⟩

def hexChar (n : Nat) : Char :=
  if n < 10 then Char.ofNat (48 + n) else Char.ofNat (87 + n)

def word2hex (w : Nat) : List Char :=
  [hexChar ((w >>> 28) % 16), hexChar ((w >>> 24) % 16),
   hexChar ((w >>> 20) % 16), hexChar ((w >>> 16) % 16),
   hexChar ((w >>> 12) % 16), hexChar ((w >>> 8) % 16),
   hexChar ((w >>> 4) % 16), hexChar (w % 16)]

/-- The full SHA-256 hex digest of a byte list, as Python's
`hashlib.sha256(data).hexdigest()` computes it. -/
def sha256hex (msg : Bytes) : List Char :=
  let st := (toBlocks (msgPad msg)).foldl compress sha256H0
  word2hex st.a ++ word2hex st.b ++ word2hex st.c ++ word2hex st.d ++
  word2hex st.e ++ word2hex st.f ++ word2hex st.g ++ word2hex st.h

/-- `hashlib.sha256(data).hexdigest()`: the one-shot in-memory digest. -/
def sha256_buf (data : Bytes) : List Char := sha256hex data

/-- The read loop of `sha256(file_path)` in `omzmini.py`: a hash object
(state: its accumulated bytes) updated with 8192-byte chunks until the
read returns empty. The fuel argument only makes the recursion structural;
any fuel at least `rest.length` gives the loop's result. -/
def sha256fileLoopF : Nat → Bytes → Bytes → Bytes
  | 0, acc, _ => acc
  | fuel + 1, acc, rest =>
    if rest = [] then acc
    else sha256fileLoopF fuel (acc ++ rest.take 8192) (rest.drop 8192)

def sha256fileLoop (acc rest : Bytes) : Bytes :=
  sha256fileLoopF rest.length acc rest

/-- `sha256(file_path)` from `omzmini.py`, applied to the bytes the file at
`file_path` holds: incremental chunked hashing, then the hex digest. -/
def sha256_file (content : Bytes) : List Char :=
  sha256hex (sha256fileLoop [] content)

/-! ### Filesystem state, event trace and run context -/

/-- The filesystem as the tool sees it: regular files (path → contents) and
the set of directories that exist. -/
structure FS where
  files : String → Option Bytes
  dirs : List String

/-- One externally visible action of the tool, in execution order. -/
inductive Event where
  /-- `log(msg)`: print the line (and append it to the audit log). -/
  | logMsg (msg : String)
  /-- `os.makedirs(dir, exist_ok=True)`. -/
  | mkdirs (dir : String)
  /-- `urllib.request.urlopen(url).read()`; `ok` is false on a transport
  failure (the caught exception). -/
  | urlopen (url : String) (ok : Bool)
  /-- The diff-display block: read `dest`, compute and print the unified
  diff against the fetched bytes. -/
  | showDiff (dest : String)
  /-- `shutil.move(src, dst)`. -/
  | move (src dst : String)
  /-- `open(path, "wb").write(data)`. -/
  | write (path : String) (data : Bytes)
  /-- Append `path <digest>` to the hash-ledger file. -/
  | appendHash (path : String) (digest : List Char)
  /-- `shutil.copy2(src, dst)`. -/
  | copy (src dst : String)
  /-- `os.chmod(path, 0o755)`. -/
  | chmod (path : String)
deriving DecidableEq

/-- The run context: everything the environment supplies. `resolve` is
`pathlib.Path(...).resolve()`, `remote` maps a URL to fetched bytes (or
`none` on a transport failure), `ts` is `datetime.now().strftime` in the
`%Y%m%d%H%M%S` format, `home` is `os.path.expanduser("~")`. -/
structure Ctx where
  home : String
  resolve : String → String
  remote : String → Option Bytes
  ts : String

def REPO_RAW : String := "https://raw.githubusercontent.com/ohmyzsh/ohmyzsh/master"

def OHMYZSH_DIR (ctx : Ctx) : String := ctx.home ++ "/.oh-my-zsh"

def OMZMINI_DIR (ctx : Ctx) : String := ctx.home ++ "/.config/omzmini"

def PIN_FILE (ctx : Ctx) : String := OMZMINI_DIR ctx ++ "/pinned.txt"

/-! ### `fetch_file` -/

/-- `fetch_file(path, dest, dry_run, diff, pinned, log_enabled)` from
`omzmini.py`, returning the updated filesystem and the trace of actions:

1. if the resolved destination is pinned, log a skip notice and return;
2. build the URL and `os.makedirs` the destination's directory;
3. in dry-run mode, log a preview notice and return;
4. fetch; on a transport failure log the failure and return;
5. if the destination exists and its digest differs from the fetched
   bytes' digest: optionally show a diff, then move the destination to
   `<dest>.<timestamp>`, logging the backup;
6. write the fetched bytes to the destination, log, and append the digest
   to the hash ledger. -/
def fetch_file (ctx : Ctx) (path dest : String) (dry_run diff : Bool)
    (pinned : List String) (log_enabled : Bool) (fs : FS) : FS × List Event :=
  let dest_path := ctx.resolve dest
  if dest_path ∈ pinned then
    (fs, [.logMsg ("🔒 Skipped pinned file: " ++ dest_path)])
  else
    let url := REPO_RAW ++ "/" ++ path
    let d := dirname dest
    let fs1 : FS := ⟨fs.files, if d ∈ fs.dirs then fs.dirs else d :: fs.dirs⟩
    if dry_run then
      (fs1, [.mkdirs d, .logMsg ("DRY-RUN: Would fetch " ++ url ++ " -> " ++ dest)])
    else
      match ctx.remote url with
      | none =>
        (fs1, [.mkdirs d, .urlopen url false, .logMsg ("❌ Failed to fetch " ++ url)])
      | some data =>
        let step2 : FS × List Event :=
          match fs1.files dest with
          | some old =>
            if sha256_file old = sha256_buf data then (fs1, [])
            else
              let backup := dest ++ "." ++ ctx.ts
              let fsB : FS :=
                ⟨fun p => if p = backup then some old
                          else if p = dest then none else fs1.files p, fs1.dirs⟩
              ((fsB),
               (if diff then [Event.showDiff dest] else []) ++
               [.move dest backup,
                .logMsg ("📝 Local changes detected → backed up as " ++ backup)])
          | none => (fs1, [])
        let fs3 : FS := ⟨fun p => if p = dest then some data else step2.1.files p,
                         step2.1.dirs⟩
        (fs3, [.mkdirs d, .urlopen url true] ++ step2.2 ++
              [.write dest data,
               .logMsg ("✅ Fetched: " ++ path ++ " -> " ++ dest),
               .appendHash path (sha256_file data)])

/-! ### Hardcoded manifests -/

def CORE_FILES : List String := ["oh-my-zsh.sh"]

def LIB_FILES : List String :=
  ["lib/completion.zsh", "lib/history.zsh", "lib/key-bindings.zsh", "lib/termcap.zsh"]

def TOOLS_FILES : List String :=
  ["tools/upgrade.sh", "tools/install.sh", "tools/uninstall.sh"]

/-! ### `parse_zshrc` -/

/-- Processing of one line of the declaration file by `parse_zshrc`.
`.error "IndexError"` models the uncaught `IndexError` that Python's
`line.split("(", 1)[1]` / `line.split('"')[1]` raise when the separator is
absent. -/
def parseLine (st : List (List Char) × Option (List Char)) (raw : List Char) :
    Except String (List (List Char) × Option (List Char)) :=
  let line := pystrip raw
  if pystartswith "plugins=".toList line then
    match pysplitOnceRest '(' line with
    | none => .error "IndexError"
    | some rest =>
      .ok (pysplitws ((pysplitchar ')' rest).headD []), st.2)
  else if pystartswith "ZSH_THEME=".toList line then
    match (pysplitchar '"' line).get? 1 with
    | none => .error "IndexError"
    | some t => .ok (st.1, some t)
  else
    .ok st

/-- `parse_zshrc(zshrc_path)`: `none` content models a missing file. The
result is the ordered plugin list and the optional theme; `.error` models
an uncaught exception escaping the line loop. -/
def parse_zshrc (content : Option (List Char)) :
    Except String (List (List Char) × Option (List Char)) :=
  match content with
  | none => .ok ([], none)
  | some s => (pysplitlines s).foldlM parseLine ([], none)

/-! ### The sync loop -/

/-- One `(remote path, destination)` work item of the sync loop. -/
abbrev Item := String × String

/-- The body of `sync_plugins_and_theme`'s loops: call `fetch_file` for each
item in order, threading the filesystem and concatenating the traces. -/
def runFetchList (ctx : Ctx) (items : List Item) (dry_run diff : Bool)
    (pinned : List String) (log_enabled : Bool) (fs : FS) : FS × List Event :=
  match items with
  | [] => (fs, [])
  | it :: rest =>
    let r1 := fetch_file ctx it.1 it.2 dry_run diff pinned log_enabled fs
    let r2 := runFetchList ctx rest dry_run diff pinned log_enabled r1.1
    (r2.1, r1.2 ++ r2.2)

/-- The full ordered work list of a sync run: core files, then lib files,
then tools files, then one item per declared plugin, then the theme. -/
def syncItems (ctx : Ctx) (plugins : List String) (theme : Option String) :
    List Item :=
  (CORE_FILES ++ LIB_FILES ++ TOOLS_FILES).map
      (fun f => (f, OHMYZSH_DIR ctx ++ "/" ++ f)) ++
  plugins.map (fun p =>
    let pf := "plugins/" ++ p ++ "/" ++ p ++ ".plugin.zsh"
    (pf, OHMYZSH_DIR ctx ++ "/" ++ pf)) ++
  (match theme with
   | some t =>
     let tf := "themes/" ++ t ++ ".zsh-theme"
     [(tf, OHMYZSH_DIR ctx ++ "/" ++ tf)]
   | none => [])

/-- `sync_plugins_and_theme(zshrc, dry_run, diff, pinned, log_enabled)`:
parse the declaration file, fetch every item of the work list, then log the
final completion notice. `.error` models an uncaught exception. -/
def sync_plugins_and_theme (ctx : Ctx) (zshrc : Option (List Char))
    (dry_run diff : Bool) (pinned : List String) (log_enabled : Bool)
    (fs : FS) : Except String (FS × List Event) :=
  match parse_zshrc zshrc with
  | .error e => .error e
  | .ok (plugins, theme) =>
    let r := runFetchList ctx
      (syncItems ctx (plugins.map String.mk) (theme.map String.mk))
      dry_run diff pinned log_enabled fs
    .ok (r.1, r.2 ++ [.logMsg "✅ Sync complete"])

/-! ### `upgrade_self` -/

/-- `upgrade_self(dry_run, pinned)`: in dry-run mode only a preview notice;
otherwise copy the tool's own file to `<path>.bak.<timestamp>`, run the
ordinary `fetch_file` on it (with `dry_run=False` and `diff` left at its
`False` default, but passing `pinned` through), chmod it and log. `.error`
models the uncaught `FileNotFoundError` of `shutil.copy2` when the tool's
own file is missing. -/
def upgrade_self (ctx : Ctx) (dry_run : Bool) (pinned : List String)
    (fs : FS) : Except String (FS × List Event) :=
  let omzmini_path := OMZMINI_DIR ctx ++ "/omzmini.py"
  let backup := omzmini_path ++ ".bak." ++ ctx.ts
  if dry_run then
    .ok (fs, [.logMsg ("DRY-RUN: Would upgrade omzmini and backup to " ++ backup)])
  else
    match fs.files omzmini_path with
    | none => .error "FileNotFoundError"
    | some selfContent =>
      let fs1 : FS :=
        ⟨fun p => if p = backup then some selfContent else fs.files p, fs.dirs⟩
      let r := fetch_file ctx "omzmini.py" omzmini_path false false pinned true fs1
      .ok (r.1, [.copy omzmini_path backup] ++ r.2 ++
                [.chmod omzmini_path,
                 .logMsg ("✅ omzmini upgraded. Backup: " ++ backup)])

/-! ### Pin loading in `main` -/

/-- Python truthiness of `args.pin` (`None` or a possibly empty list). -/
def truthyList : Option (List String) → Bool
  | some (_ :: _) => true
  | _ => false

/-- The pin-set construction of `main` (lines 199–203): command-line paths
take precedence when non-empty; otherwise every line of the pin file is
stripped and resolved; a missing pin file gives the empty set. -/
def loadPins (resolve : String → String) (args_pin : Option (List String))
    (pin_file : Option String) : List String :=
  if truthyList args_pin then (args_pin.getD []).map resolve
  else
    match pin_file with
    | some content =>
      (pysplitlines content.toList).map fun l => resolve (String.mk (pystrip l))
    | none => []

/-- Modelled from the spec's words (for comparison with `loadPins`): read
the persisted pin file "one path per line, ignoring blank lines, resolving
each to an absolute canonical path". -/
def loadPinsSpec (resolve : String → String) (pin_file : Option String) :
    List String :=
  match pin_file with
  | some content =>
    ((pysplitlines content.toList).filter fun l => pystrip l ≠ []).map
      fun l => resolve (String.mk (pystrip l))
  | none => []

/-! ### Concrete contexts and states used by witnesses and counterexamples -/

/-- A concrete run context: identity resolution, a remote that serves the
byte `98` for every URL, a fixed timestamp. -/
def ctxW : Ctx := ⟨"/home/u", fun s => s, fun _ => some [98], "20240101000000"⟩

/-- An empty filesystem. -/
def fsEmpty : FS := ⟨fun _ => none, []⟩

/-- A filesystem holding one tracked file with content `[97]`. -/
def fsOld : FS :=
  ⟨fun p => if p = "/home/u/.oh-my-zsh/oh-my-zsh.sh" then some ([97] : Bytes) else none,
   ["/home/u/.oh-my-zsh"]⟩

/-- A run context whose remote serves `[1]` (the "new" tool content). -/
def ctx6 : Ctx := ⟨"/h", fun s => s, fun _ => some [1], "20240101000000"⟩

/-- The tool's own path under `ctx6`. -/
def omz6 : String := "/h/.config/omzmini/omzmini.py"

/-- A filesystem where the tool's own file holds content `[0]`. -/
def fs6 : FS := ⟨fun p => if p = omz6 then some ([0] : Bytes) else none, []⟩

/-! ### Helper lemmas -/

theorem str_append_ne_left (s t : String) (h : 0 < t.length) : s ++ t ≠ s := by
  intro he
  have hl := congrArg String.length he
  rw [String.length_append] at hl
  omega

theorem sha256fileLoopF_eq (fuel : Nat) :
    ∀ (acc rest : Bytes), rest.length ≤ fuel →
      sha256fileLoopF fuel acc rest = acc ++ rest := by
  induction fuel with
  | zero =>
    intro acc rest h
    have hr : rest = [] := List.eq_nil_of_length_eq_zero (Nat.le_zero.mp h)
    simp [sha256fileLoopF, hr]
  | succ n ih =>
    intro acc rest h
    by_cases hr : rest = []
    · simp [sha256fileLoopF, hr]
    · have hlen : rest.length ≠ 0 := fun h0 => hr (List.eq_nil_of_length_eq_zero h0)
      rw [sha256fileLoopF, if_neg hr, ih]
      · rw [List.append_assoc, List.take_append_drop]
      · simp only [List.length_drop]
        omega

/-- The incremental chunked file hash agrees with the one-shot buffer hash. -/
theorem sha256_file_eq_buf (content : Bytes) :
    sha256_file content = sha256_buf content := by
  unfold sha256_file sha256_buf sha256fileLoop
  rw [sha256fileLoopF_eq content.length [] content (Nat.le_refl _)]
  rfl

theorem word2hex_length (w : Nat) : (word2hex w).length = 8 := by
  simp [word2hex]

theorem sha256hex_length (msg : Bytes) : (sha256hex msg).length = 64 := by
  simp [sha256hex, word2hex_length]

theorem hexChar_mem_alphabet (n : Nat) :
    hexChar (n % 16) ∈ "0123456789abcdef".toList := by
  have h16 : n % 16 < 16 := Nat.mod_lt _ (by omega)
  interval_cases h : (n % 16) <;> decide

theorem word2hex_chars (w : Nat) :
    ∀ c ∈ word2hex w, c ∈ "0123456789abcdef".toList := by
  intro c hc
  simp only [word2hex, List.mem_cons, List.not_mem_nil, or_false] at hc
  rcases hc with h | h | h | h | h | h | h | h <;> subst h <;>
    exact hexChar_mem_alphabet _

theorem sha256hex_chars_hex (msg : Bytes) :
    ∀ c ∈ sha256hex msg, c ∈ "0123456789abcdef".toList := by
  intro c hc
  unfold sha256hex at hc
  simp only [List.mem_append] at hc
  rcases hc with ((((((h | h) | h) | h) | h) | h) | h) | h <;>
    exact word2hex_chars _ c h

theorem str_append2_ne (s mid t : String) (h : 0 < mid.length) : s ++ mid ++ t ≠ s := by
  intro he
  have hl := congrArg String.length he
  rw [String.length_append, String.length_append] at hl
  omega

theorem fetch_file_pinned_eq (ctx : Ctx) (path dest : String) (dry_run diff : Bool)
    (pinned : List String) (log_enabled : Bool) (fs : FS)
    (h : ctx.resolve dest ∈ pinned) :
    fetch_file ctx path dest dry_run diff pinned log_enabled fs =
      (fs, [.logMsg ("🔒 Skipped pinned file: " ++ ctx.resolve dest)]) := by
  unfold fetch_file
  rw [if_pos h]

theorem fetch_file_dry_run_eq (ctx : Ctx) (path dest : String) (diff : Bool)
    (pinned : List String) (log_enabled : Bool) (fs : FS)
    (h : ctx.resolve dest ∉ pinned) :
    fetch_file ctx path dest true diff pinned log_enabled fs =
      (⟨fs.files, if dirname dest ∈ fs.dirs then fs.dirs else dirname dest :: fs.dirs⟩,
       [.mkdirs (dirname dest),
        .logMsg ("DRY-RUN: Would fetch " ++ (REPO_RAW ++ "/" ++ path) ++ " -> " ++ dest)]) := by
  unfold fetch_file
  rw [if_neg h]
  rfl

theorem fetch_file_failure_eq (ctx : Ctx) (path dest : String) (diff : Bool)
    (pinned : List String) (log_enabled : Bool) (fs : FS)
    (hpin : ctx.resolve dest ∉ pinned)
    (hrem : ctx.remote (REPO_RAW ++ "/" ++ path) = none) :
    fetch_file ctx path dest false diff pinned log_enabled fs =
      (⟨fs.files, if dirname dest ∈ fs.dirs then fs.dirs else dirname dest :: fs.dirs⟩,
       [.mkdirs (dirname dest), .urlopen (REPO_RAW ++ "/" ++ path) false,
        .logMsg ("❌ Failed to fetch " ++ (REPO_RAW ++ "/" ++ path))]) := by
  unfold fetch_file
  rw [if_neg hpin]
  simp only [if_false, Bool.false_eq_true, hrem]

theorem fetch_file_new_eq (ctx : Ctx) (path dest : String) (diff : Bool)
    (pinned : List String) (log_enabled : Bool) (fs : FS) (data : Bytes)
    (hpin : ctx.resolve dest ∉ pinned)
    (hrem : ctx.remote (REPO_RAW ++ "/" ++ path) = some data)
    (hold : fs.files dest = none) :
    fetch_file ctx path dest false diff pinned log_enabled fs =
      (⟨fun p => if p = dest then some data else fs.files p,
        if dirname dest ∈ fs.dirs then fs.dirs else dirname dest :: fs.dirs⟩,
       [.mkdirs (dirname dest), .urlopen (REPO_RAW ++ "/" ++ path) true,
        .write dest data,
        .logMsg ("✅ Fetched: " ++ path ++ " -> " ++ dest),
        .appendHash path (sha256_file data)]) := by
  unfold fetch_file
  rw [if_neg hpin]
  simp only [if_false, Bool.false_eq_true, hrem, hold]
  rfl

theorem fetch_file_same_eq (ctx : Ctx) (path dest : String) (diff : Bool)
    (pinned : List String) (log_enabled : Bool) (fs : FS) (old data : Bytes)
    (hpin : ctx.resolve dest ∉ pinned)
    (hrem : ctx.remote (REPO_RAW ++ "/" ++ path) = some data)
    (hold : fs.files dest = some old)
    (hhash : sha256_file old = sha256_buf data) :
    fetch_file ctx path dest false diff pinned log_enabled fs =
      (⟨fun p => if p = dest then some data else fs.files p,
        if dirname dest ∈ fs.dirs then fs.dirs else dirname dest :: fs.dirs⟩,
       [.mkdirs (dirname dest), .urlopen (REPO_RAW ++ "/" ++ path) true,
        .write dest data,
        .logMsg ("✅ Fetched: " ++ path ++ " -> " ++ dest),
        .appendHash path (sha256_file data)]) := by
  unfold fetch_file
  rw [if_neg hpin]
  simp only [if_false, Bool.false_eq_true, hrem, hold, if_pos hhash]
  rfl

theorem fetch_file_update_eq (ctx : Ctx) (path dest : String) (diff : Bool)
    (pinned : List String) (log_enabled : Bool) (fs : FS) (old data : Bytes)
    (hpin : ctx.resolve dest ∉ pinned)
    (hrem : ctx.remote (REPO_RAW ++ "/" ++ path) = some data)
    (hold : fs.files dest = some old)
    (hhash : ¬ sha256_file old = sha256_buf data) :
    fetch_file ctx path dest false diff pinned log_enabled fs =
      (⟨fun p => if p = dest then some data
                 else if p = dest ++ "." ++ ctx.ts then some old
                 else if p = dest then none else fs.files p,
        if dirname dest ∈ fs.dirs then fs.dirs else dirname dest :: fs.dirs⟩,
       [.mkdirs (dirname dest), .urlopen (REPO_RAW ++ "/" ++ path) true] ++
       ((if diff then [Event.showDiff dest] else []) ++
        [.move dest (dest ++ "." ++ ctx.ts),
         .logMsg ("📝 Local changes detected → backed up as " ++ (dest ++ "." ++ ctx.ts))]) ++
       [.write dest data,
        .logMsg ("✅ Fetched: " ++ path ++ " -> " ++ dest),
        .appendHash path (sha256_file data)]) := by
  unfold fetch_file
  rw [if_neg hpin]
  simp only [if_false, Bool.false_eq_true, hrem, hold, if_neg hhash]

/-- With `diff=False` (its default), `fetch_file` never shows a diff. -/
theorem fetch_file_no_showDiff (ctx : Ctx) (path dest : String) (dry_run : Bool)
    (pinned : List String) (log_enabled : Bool) (fs : FS) (d : String) :
    Event.showDiff d ∉ (fetch_file ctx path dest dry_run false pinned log_enabled fs).2 := by
  by_cases hpin : ctx.resolve dest ∈ pinned
  · rw [fetch_file_pinned_eq ctx path dest dry_run false pinned log_enabled fs hpin]
    simp
  · cases dry_run with
    | true =>
      rw [fetch_file_dry_run_eq ctx path dest false pinned log_enabled fs hpin]
      simp
    | false =>
      cases hrem : ctx.remote (REPO_RAW ++ "/" ++ path) with
      | none =>
        rw [fetch_file_failure_eq ctx path dest false pinned log_enabled fs hpin hrem]
        simp
      | some data =>
        cases hold : fs.files dest with
        | none =>
          rw [fetch_file_new_eq ctx path dest false pinned log_enabled fs data hpin hrem hold]
          simp
        | some old =>
          by_cases hhash : sha256_file old = sha256_buf data
          · rw [fetch_file_same_eq ctx path dest false pinned log_enabled fs old data
                  hpin hrem hold hhash]
            simp
          · rw [fetch_file_update_eq ctx path dest false pinned log_enabled fs old data
                  hpin hrem hold hhash]
            simp

/-! ### Claim theorems -/

/-- C1: For every destination path whose resolved absolute path is in the
pin set, a sync run performs no fetch, no write, and no backup for that
path, regardless of remote content or of dry-run/diff mode: `fetch_file`
leaves the filesystem completely unchanged and its only action is logging
the skip notice. -/
theorem pinned_path_untouched (ctx : Ctx) (path dest : String) (dry_run diff : Bool)
    (pinned : List String) (log_enabled : Bool) (fs : FS)
    (h : ctx.resolve dest ∈ pinned) :
    fetch_file ctx path dest dry_run diff pinned log_enabled fs =
      (fs, [.logMsg ("🔒 Skipped pinned file: " ++ ctx.resolve dest)]) :=
  fetch_file_pinned_eq ctx path dest dry_run diff pinned log_enabled fs h

theorem pinned_path_untouched_witness :
    fetch_file ctxW "oh-my-zsh.sh" "/home/u/.oh-my-zsh/oh-my-zsh.sh" false true
        ["/home/u/.oh-my-zsh/oh-my-zsh.sh"] true fsOld =
      (fsOld, [.logMsg ("🔒 Skipped pinned file: " ++
        ctxW.resolve "/home/u/.oh-my-zsh/oh-my-zsh.sh")]) :=
  pinned_path_untouched ctxW "oh-my-zsh.sh" "/home/u/.oh-my-zsh/oh-my-zsh.sh" false true
    ["/home/u/.oh-my-zsh/oh-my-zsh.sh"] true fsOld (by decide)

/-- C2 (counterexample): in dry-run mode the code still mutates the
filesystem: `os.makedirs` runs before the dry-run check, so syncing a file
whose destination directory does not exist creates that directory. Here the
directory list grows from `[]` to one entry during a dry run. -/
theorem dry_run_mutation_counterexample :
    (fetch_file ctxW "lib/completion.zsh" "/home/u/.oh-my-zsh/lib/completion.zsh"
        true false [] true fsEmpty).1.dirs = ["/home/u/.oh-my-zsh/lib"] ∧
    fsEmpty.dirs = [] := by
  constructor
  · rfl
  · rfl

/-- C2 (amended): in dry-run mode, for every non-pinned file, sync performs
no fetch attempt, no file write, and no backup — the file map is unchanged
and the only logged line is the preview notice — but the destination's
parent directory is still created if missing. -/
theorem dry_run_no_fetch_write_backup (ctx : Ctx) (path dest : String) (diff : Bool)
    (pinned : List String) (log_enabled : Bool) (fs : FS)
    (h : ctx.resolve dest ∉ pinned) :
    (fetch_file ctx path dest true diff pinned log_enabled fs).1.files = fs.files ∧
    (fetch_file ctx path dest true diff pinned log_enabled fs).2 =
      [.mkdirs (dirname dest),
       .logMsg ("DRY-RUN: Would fetch " ++ (REPO_RAW ++ "/" ++ path) ++ " -> " ++ dest)] ∧
    (fetch_file ctx path dest true diff pinned log_enabled fs).1.dirs =
      (if dirname dest ∈ fs.dirs then fs.dirs else dirname dest :: fs.dirs) := by
  rw [fetch_file_dry_run_eq ctx path dest diff pinned log_enabled fs h]
  exact ⟨rfl, rfl, rfl⟩

theorem dry_run_no_fetch_write_backup_witness :
    (fetch_file ctxW "oh-my-zsh.sh" "/home/u/.oh-my-zsh/oh-my-zsh.sh" true false []
        true fsOld).2 =
      [.mkdirs "/home/u/.oh-my-zsh",
       .logMsg ("DRY-RUN: Would fetch " ++ (REPO_RAW ++ "/" ++ "oh-my-zsh.sh") ++
                " -> " ++ "/home/u/.oh-my-zsh/oh-my-zsh.sh")] :=
  (dry_run_no_fetch_write_backup ctxW "oh-my-zsh.sh" "/home/u/.oh-my-zsh/oh-my-zsh.sh"
    false [] true fsOld (by decide)).2.1

/-- C3: For every non-pinned file present locally whose content differs
from the fetched remote content (as the code detects it, by comparing the
incremental SHA-256 digest of the local file with the one-shot digest of
the fetched bytes), a non-dry-run sync first shows the diff when diff mode
is requested — the diff event precedes the move and the write in the
trace — then creates exactly one new backup file `<dest>.<timestamp>`
holding the pre-sync bytes (the backup path was previously absent), and
then writes the fetched bytes to the destination; no other path changes. -/
theorem backup_then_write_on_digest_mismatch (ctx : Ctx) (path dest : String)
    (diff : Bool) (pinned : List String) (log_enabled : Bool) (fs : FS)
    (old data : Bytes)
    (hpin : ctx.resolve dest ∉ pinned)
    (hrem : ctx.remote (REPO_RAW ++ "/" ++ path) = some data)
    (hold : fs.files dest = some old)
    (hfresh : fs.files (dest ++ "." ++ ctx.ts) = none)
    (hhash : sha256_file old ≠ sha256_buf data) :
    (fetch_file ctx path dest false diff pinned log_enabled fs).1.files
        (dest ++ "." ++ ctx.ts) = some old ∧
    (fetch_file ctx path dest false diff pinned log_enabled fs).1.files dest =
        some data ∧
    (∀ p, p ≠ dest → p ≠ dest ++ "." ++ ctx.ts →
      (fetch_file ctx path dest false diff pinned log_enabled fs).1.files p =
        fs.files p) ∧
    (fetch_file ctx path dest false diff pinned log_enabled fs).2 =
      [.mkdirs (dirname dest), .urlopen (REPO_RAW ++ "/" ++ path) true] ++
      ((if diff then [Event.showDiff dest] else []) ++
       [.move dest (dest ++ "." ++ ctx.ts),
        .logMsg ("📝 Local changes detected → backed up as " ++
                 (dest ++ "." ++ ctx.ts))]) ++
      [.write dest data,
       .logMsg ("✅ Fetched: " ++ path ++ " -> " ++ dest),
       .appendHash path (sha256_file data)] := by
  rw [fetch_file_update_eq ctx path dest diff pinned log_enabled fs old data
        hpin hrem hold hhash]
  refine ⟨?_, ?_, ?_, rfl⟩
  · dsimp only
    rw [if_neg (str_append2_ne dest "." ctx.ts (by decide))]
    simp
  · dsimp only
    simp
  · intro p hp1 hp2
    dsimp only
    rw [if_neg hp1, if_neg hp2, if_neg hp1]

set_option maxRecDepth 1000000 in
theorem backup_then_write_on_digest_mismatch_witness :
    (fetch_file ctxW "oh-my-zsh.sh" "/home/u/.oh-my-zsh/oh-my-zsh.sh" false true []
        true fsOld).1.files ("/home/u/.oh-my-zsh/oh-my-zsh.sh" ++ "." ++ ctxW.ts) =
      some [97] :=
  (backup_then_write_on_digest_mismatch ctxW "oh-my-zsh.sh"
    "/home/u/.oh-my-zsh/oh-my-zsh.sh" true [] true fsOld [97] [98]
    (by decide) (by decide) (by decide) (by decide) (by decide)).1

/-- C4: For every file already present locally whose content is identical
to the fetched remote content, a sync run creates no backup file and the
local file's bytes are unchanged: every path of the file map is unchanged
(the destination is re-written with the same bytes), and the trace holds
no move, so no backup is created. -/
theorem identical_content_no_backup (ctx : Ctx) (path dest : String) (diff : Bool)
    (pinned : List String) (log_enabled : Bool) (fs : FS) (data : Bytes)
    (hpin : ctx.resolve dest ∉ pinned)
    (hrem : ctx.remote (REPO_RAW ++ "/" ++ path) = some data)
    (hold : fs.files dest = some data) :
    (∀ p, (fetch_file ctx path dest false diff pinned log_enabled fs).1.files p =
        fs.files p) ∧
    (fetch_file ctx path dest false diff pinned log_enabled fs).2 =
      [.mkdirs (dirname dest), .urlopen (REPO_RAW ++ "/" ++ path) true,
       .write dest data,
       .logMsg ("✅ Fetched: " ++ path ++ " -> " ++ dest),
       .appendHash path (sha256_file data)] := by
  rw [fetch_file_same_eq ctx path dest diff pinned log_enabled fs data data hpin hrem hold
        (sha256_file_eq_buf data)]
  refine ⟨?_, rfl⟩
  intro p
  dsimp only
  by_cases hp : p = dest
  · subst hp
    rw [if_pos rfl, hold]
  · rw [if_neg hp]

theorem identical_content_no_backup_witness :
    (fetch_file (⟨"/home/u", fun s => s, fun _ => some [97], "20240101000000"⟩ : Ctx)
        "oh-my-zsh.sh" "/home/u/.oh-my-zsh/oh-my-zsh.sh" false true [] true fsOld).2 =
      [.mkdirs "/home/u/.oh-my-zsh",
       .urlopen (REPO_RAW ++ "/" ++ "oh-my-zsh.sh") true,
       .write "/home/u/.oh-my-zsh/oh-my-zsh.sh" [97],
       .logMsg ("✅ Fetched: " ++ "oh-my-zsh.sh" ++ " -> " ++ "/home/u/.oh-my-zsh/oh-my-zsh.sh"),
       .appendHash "oh-my-zsh.sh" (sha256_file [97])] :=
  (identical_content_no_backup
    (⟨"/home/u", fun s => s, fun _ => some [97], "20240101000000"⟩ : Ctx)
    "oh-my-zsh.sh" "/home/u/.oh-my-zsh/oh-my-zsh.sh" true [] true fsOld [97]
    (by decide) (by decide) (by decide)).2

/-- C5: If fetching a file fails at the transport level (`urlopen` raised,
modelled as `remote = none`), `fetch_file` logs the failure and returns
without writing the destination, creating a backup, or appending a
hash-ledger entry (the file map is unchanged and the trace holds only the
makedirs, the failed fetch and the failure log), and the sync loop over
the remaining manifest/plugin/theme items still processes every subsequent
item from that unchanged state. -/
theorem fetch_failure_logged_and_loop_continues (ctx : Ctx) (path dest : String)
    (diff : Bool) (pinned : List String) (log_enabled : Bool) (fs : FS)
    (rest : List Item)
    (hpin : ctx.resolve dest ∉ pinned)
    (hrem : ctx.remote (REPO_RAW ++ "/" ++ path) = none) :
    (fetch_file ctx path dest false diff pinned log_enabled fs).1.files = fs.files ∧
    (fetch_file ctx path dest false diff pinned log_enabled fs).2 =
      [.mkdirs (dirname dest), .urlopen (REPO_RAW ++ "/" ++ path) false,
       .logMsg ("❌ Failed to fetch " ++ (REPO_RAW ++ "/" ++ path))] ∧
    runFetchList ctx ((path, dest) :: rest) false diff pinned log_enabled fs =
      ((runFetchList ctx rest false diff pinned log_enabled
          (fetch_file ctx path dest false diff pinned log_enabled fs).1).1,
       (fetch_file ctx path dest false diff pinned log_enabled fs).2 ++
       (runFetchList ctx rest false diff pinned log_enabled
          (fetch_file ctx path dest false diff pinned log_enabled fs).1).2) := by
  refine ⟨?_, ?_, rfl⟩
  · rw [fetch_file_failure_eq ctx path dest diff pinned log_enabled fs hpin hrem]
  · rw [fetch_file_failure_eq ctx path dest diff pinned log_enabled fs hpin hrem]

theorem fetch_failure_logged_and_loop_continues_witness :
    (fetch_file (⟨"/home/u", fun s => s, fun _ => none, "20240101000000"⟩ : Ctx)
        "oh-my-zsh.sh" "/home/u/.oh-my-zsh/oh-my-zsh.sh" false false [] true fsOld).2 =
      [.mkdirs "/home/u/.oh-my-zsh",
       .urlopen (REPO_RAW ++ "/" ++ "oh-my-zsh.sh") false,
       .logMsg ("❌ Failed to fetch " ++ (REPO_RAW ++ "/" ++ "oh-my-zsh.sh"))] :=
  (fetch_failure_logged_and_loop_continues
    (⟨"/home/u", fun s => s, fun _ => none, "20240101000000"⟩ : Ctx)
    "oh-my-zsh.sh" "/home/u/.oh-my-zsh/oh-my-zsh.sh" false [] true fsOld
    [("lib/history.zsh", "/home/u/.oh-my-zsh/lib/history.zsh")]
    (by decide) (by decide)).2.1

/-- C6 (counterexample): self-upgrade is not exempt from the Pin Registry
or the hash/backup machinery: `upgrade_self` passes the pin set into the
ordinary `fetch_file` (line 182), so with the tool's own path pinned the
fetch step logs a pin skip and performs no fetch and no write — the file
still holds its old bytes `[0]` even though the remote serves `[1]`. The
complete result below exhibits the pin-skip log notice and the absence of
any `urlopen`/`write` event, refuting "no pin skip" and "plain
fetch-and-replace". -/
theorem upgrade_self_pin_exemption_counterexample :
    upgrade_self ctx6 false [omz6] fs6 =
      .ok (⟨fun p => if p = omz6 ++ ".bak." ++ ctx6.ts then some [0] else fs6.files p,
            fs6.dirs⟩,
           [.copy omz6 (omz6 ++ ".bak." ++ ctx6.ts),
            .logMsg ("🔒 Skipped pinned file: " ++ omz6),
            .chmod omz6,
            .logMsg ("✅ omzmini upgraded. Backup: " ++ (omz6 ++ ".bak." ++ ctx6.ts))]) := by
  rfl

/-- C6 (amended): Self-upgrade backs up the tool's own executable to
`<path>.bak.<timestamp>` and then fetches it through the same `fetch_file`
routine as ordinary synced files, with dry-run off and the diff display
off but the pin set passed through: the fetch step still honours the pin
registry (a pinned tool path keeps its old bytes) and still runs the
ordinary hash-compare/backup-on-diff logic; only the diff display never
occurs. -/
theorem upgrade_self_plain_fetch (ctx : Ctx) (pinned : List String) (fs : FS)
    (c : Bytes)
    (hself : fs.files (OMZMINI_DIR ctx ++ "/omzmini.py") = some c) :
    upgrade_self ctx false pinned fs =
      (let omz := OMZMINI_DIR ctx ++ "/omzmini.py"
       let bak := omz ++ ".bak." ++ ctx.ts
       let fs1 : FS := ⟨fun p => if p = bak then some c else fs.files p, fs.dirs⟩
       let r := fetch_file ctx "omzmini.py" omz false false pinned true fs1
       .ok (r.1, [.copy omz bak] ++ r.2 ++
                 [.chmod omz, .logMsg ("✅ omzmini upgraded. Backup: " ++ bak)])) ∧
    (∀ (d : String) (r : FS × List Event),
      upgrade_self ctx false pinned fs = .ok r → Event.showDiff d ∉ r.2) ∧
    (ctx.resolve (OMZMINI_DIR ctx ++ "/omzmini.py") ∈ pinned →
      ∀ r, upgrade_self ctx false pinned fs = .ok r →
        r.1.files (OMZMINI_DIR ctx ++ "/omzmini.py") = some c) := by
  have h1 : upgrade_self ctx false pinned fs =
      (let omz := OMZMINI_DIR ctx ++ "/omzmini.py"
       let bak := omz ++ ".bak." ++ ctx.ts
       let fs1 : FS := ⟨fun p => if p = bak then some c else fs.files p, fs.dirs⟩
       let r := fetch_file ctx "omzmini.py" omz false false pinned true fs1
       .ok (r.1, [.copy omz bak] ++ r.2 ++
                 [.chmod omz, .logMsg ("✅ omzmini upgraded. Backup: " ++ bak)])) := by
    unfold upgrade_self
    simp only [Bool.false_eq_true, if_false, hself]
  refine ⟨h1, ?_, ?_⟩
  · intro d r hr
    rw [h1] at hr
    injection hr with hr
    subst hr
    dsimp only
    intro hmem
    rcases List.mem_append.mp hmem with h2 | h2
    · rcases List.mem_append.mp h2 with h3 | h3
      · simp at h3
      · exact fetch_file_no_showDiff ctx "omzmini.py" (OMZMINI_DIR ctx ++ "/omzmini.py")
          false pinned true _ d h3
    · simp at h2
  · intro hp r hr
    rw [h1] at hr
    injection hr with hr
    subst hr
    dsimp only
    rw [fetch_file_pinned_eq ctx "omzmini.py" (OMZMINI_DIR ctx ++ "/omzmini.py")
          false false pinned true _ hp]
    dsimp only
    rw [if_neg (Ne.symm (str_append2_ne (OMZMINI_DIR ctx ++ "/omzmini.py")
          ".bak." ctx.ts (by decide)))]
    exact hself

theorem upgrade_self_plain_fetch_witness :
    (⟨fun p => if p = omz6 ++ ".bak." ++ ctx6.ts then some ([0] : Bytes)
               else fs6.files p, fs6.dirs⟩ : FS).files omz6 = some ([0] : Bytes) :=
  (upgrade_self_plain_fetch ctx6 [omz6] fs6 [0] (by decide)).2.2 (by decide)
    (⟨fun p => if p = omz6 ++ ".bak." ++ ctx6.ts then some ([0] : Bytes)
               else fs6.files p, fs6.dirs⟩,
     [.copy omz6 (omz6 ++ ".bak." ++ ctx6.ts),
      .logMsg ("🔒 Skipped pinned file: " ++ omz6),
      .chmod omz6,
      .logMsg ("✅ omzmini upgraded. Backup: " ++ (omz6 ++ ".bak." ++ ctx6.ts))])
    (by rfl)

/-- C7 (counterexample): blank lines of the pin file are not ignored:
`main` computes `Path(p.strip()).resolve()` for every line read from the
pin file, so a blank line contributes the resolution of the empty path
(in Python, the current working directory). With an identity resolver the
pin file `"a\n\n"` loads as `["a", ""]`, while the claim's reading (blank
lines ignored) gives `["a"]`. -/
theorem loadPins_blank_line_counterexample :
    loadPins (fun s => s) none (some "a\n\n") = ["a", ""] ∧
    loadPinsSpec (fun s => s) (some "a\n\n") = ["a"] :=
  ⟨rfl, rfl⟩

/-- C7 (amended): When no pin paths are supplied on the command line, the
pin set is loaded from the persisted pin file as the set of its lines, one
path per line, each line stripped of surrounding whitespace and resolved
to a canonical absolute path — including blank lines, which are not
ignored and contribute the resolution of the empty path; a non-existent
pin file yields the empty set rather than an error. -/
theorem loadPins_file_semantics (resolve : String → String) (content : String) :
    (∀ p, p ∈ loadPins resolve none (some content) ↔
      ∃ l ∈ pysplitlines content.toList, resolve (String.mk (pystrip l)) = p) ∧
    loadPins resolve none none = [] := by
  constructor
  · intro p
    simp [loadPins, truthyList, List.mem_map]
  · rfl

/-- C8: Declaration parsing returns the plugin identifiers of a `plugins=`
line as the whitespace-split tokens of its parenthesized list in declared
order, and the theme as the text between the first pair of double quotes
of a `ZSH_THEME=` line, with the last theme line winning (the result of
processing a theme line never depends on the previously held theme); the
given example input parses to plugins `["git","docker"]` and theme
`"robbyrussell"`, and a missing declaration file yields an empty plugin
list and no theme. -/
theorem parse_zshrc_declarations :
    parse_zshrc (some ("plugins=(git docker)\nZSH_THEME=\"robbyrussell\"").toList) =
      .ok (["git".toList, "docker".toList], some "robbyrussell".toList) ∧
    parse_zshrc none = .ok ([], none) ∧
    parse_zshrc (some ("ZSH_THEME=\"alpha\"\nZSH_THEME=\"beta\"").toList) =
      .ok ([], some "beta".toList) ∧
    (∀ (ps : List (List Char)) (t0 : Option (List Char)) (l : List Char),
      pystartswith "ZSH_THEME=".toList (pystrip l) = true →
      pystartswith "plugins=".toList (pystrip l) = false →
      parseLine (ps, t0) l = parseLine (ps, none) l) := by
  refine ⟨by rfl, rfl, by rfl, ?_⟩
  intro ps t0 l h1 h2
  unfold parseLine
  dsimp only
  rw [h2, h1]
  simp

theorem parse_zshrc_declarations_witness :
    parseLine ([], some "old".toList) "ZSH_THEME=\"new\"".toList =
      parseLine ([], none) "ZSH_THEME=\"new\"".toList :=
  parse_zshrc_declarations.2.2.2 [] (some "old".toList) "ZSH_THEME=\"new\"".toList
    (by decide) (by decide)

/-- C9 (code bug): a line that begins with the theme marker but is not
followed by a double-quoted string, or one that begins with the plugins
marker but has no parenthesized list, is not ignored: `line.split('"')[1]`
and `line.split("(", 1)[1]` raise an uncaught IndexError that aborts
parsing (and with it the whole sync/doctor/list run). Only lines matching
neither marker are ignored, as the third conjunct shows. -/
theorem parse_zshrc_malformed_line_raises :
    parse_zshrc (some "ZSH_THEME=agnoster\n".toList) = .error "IndexError" ∧
    parse_zshrc (some "plugins=git docker\n".toList) = .error "IndexError" ∧
    parse_zshrc (some "# comment\nexport PATH\n".toList) = .ok ([], none) :=
  ⟨rfl, rfl, rfl⟩

/-- C10: For every byte content, the incremental fixed-size-chunk
(8192-byte) digest of a file holding that content equals the one-shot
in-memory digest of the same bytes — so hashing identical content via
file path or via buffer yields identical digests — and the digest is a
fixed-length (64-character) hexadecimal string. -/
theorem sha256_file_buffer_agree (content : Bytes) :
    sha256_file content = sha256_buf content ∧
    (sha256_file content).length = 64 ∧
    ∀ c ∈ sha256_buf content, c ∈ "0123456789abcdef".toList := by
  refine ⟨sha256_file_eq_buf content, ?_, sha256hex_chars_hex content⟩
  rw [sha256_file_eq_buf content]
  exact sha256hex_length content

set_option maxRecDepth 1000000 in
theorem sha256_file_buffer_agree_witness :
    sha256_file [] = sha256_buf [] ∧ 'e' ∈ "0123456789abcdef".toList :=
  ⟨(sha256_file_buffer_agree []).1,
   (sha256_file_buffer_agree []).2.2 'e' (by decide)⟩

theorem loadPins_file_semantics_witness :
    "x" ∈ loadPins (fun s => s) none (some "x") :=
  ((loadPins_file_semantics (fun s => s) "x").1 "x").mpr
    ⟨"x".toList, by decide, by decide⟩
